import Mathlib

/-!
Shallow embedding of the Spark ETL pipeline in `etl.py` (functions
`process_song_data` and `process_log_data`).

Dataframes are modelled as Lean lists of structure values; Spark column
operations become list `map` / `filter` / `dedup` operations.  Floating
point columns (`artist_latitude`, `artist_longitude`, `duration`) are only
ever copied, never computed with, so they are represented by exact `Rat`
values.  The Python `datetime.fromtimestamp` conversion depends on the local
timezone of the machine running the job; it is modelled with an explicit
fixed timezone offset `tz` in seconds (UTC is `tz = 0`), threaded through
the pipeline as a parameter.
-/

/-- Days-since-epoch (1970-01-01) to a proleptic Gregorian calendar date
(year, month, day).  Howard Hinnant's `civil_from_days` algorithm, with
C-style truncating division (`Int.tdiv`) exactly as in the reference
implementation used by C/Python runtimes. -/
def civilFromDays (z0 : Int) : Int × Int × Int :=
  let z := z0 + 719468
  let era := Int.tdiv (if 0 ≤ z then z else z - 146096) 146097
  let doe := z - era * 146097
  let yoe := Int.tdiv (doe - Int.tdiv doe 1460 + Int.tdiv doe 36524 - Int.tdiv doe 146096) 365
  let y := yoe + era * 400
  let doy := doe - (365 * yoe + Int.tdiv yoe 4 - Int.tdiv yoe 100)
  let mp := Int.tdiv (5 * doy + 2) 153
  let d := doy - Int.tdiv (153 * mp + 2) 5 + 1
  let m := mp + (if mp < 10 then 3 else -9)
  (y + (if m ≤ 2 then 1 else 0), m, d)

/-- Calendar date to days-since-epoch: Hinnant's `days_from_civil`,
inverse of `civilFromDays`. -/
def daysFromCivil (y0 m d : Int) : Int :=
  let y := y0 - (if m ≤ 2 then 1 else 0)
  let era := Int.tdiv (if 0 ≤ y then y else y - 399) 400
  let yoe := y - era * 400
  let doy := Int.tdiv (153 * (m + (if 2 < m then -3 else 9)) + 2) 5 + d - 1
  let doe := yoe * 365 + Int.tdiv yoe 4 - Int.tdiv yoe 100 + doy
  era * 146097 + doe - 719468

/-- The value of Python's `datetime` objects, to microsecond precision,
as produced by `datetime.fromtimestamp`.  `str` on such a value is
injective (it prints every field, including a nonzero microsecond part),
so modelling the string-valued `datetime` column by the `Datetime` value
itself preserves equality and deduplication semantics. -/
structure Datetime where
  year : Int
  month : Int
  day : Int
  hour : Int
  minute : Int
  second : Int
  microsecond : Int
deriving DecidableEq

/-- Whole seconds since the epoch (already shifted to local time) to the
calendar value, with a zero microsecond field. -/
def calendarOfSeconds (s : Int) : Datetime :=
  let days := Int.ediv s 86400
  let sod := Int.emod s 86400
  let c := civilFromDays days
  { year := c.1, month := c.2.1, day := c.2.2
    hour := Int.ediv sod 3600
    minute := Int.ediv (Int.emod sod 3600) 60
    second := Int.emod sod 60
    microsecond := 0 }

/-- `etl.py` line 90: `get_timestamp = udf(lambda x: str(int(int(x)/1000)))`.
Python's `int()` of the float quotient truncates toward zero, which is
`Int.tdiv`.  The source wraps the result in `str`; `str` on integers is
injective, so the numeric value is kept. -/
def get_timestamp (x : Int) : Int :=
  Int.tdiv x 1000

/-- `etl.py` line 94:
`get_datetime = udf(lambda x: str(datetime.fromtimestamp(int(x) / 1000)))`.
`int(x) / 1000` is true (float) division, so `fromtimestamp` receives the
value with its millisecond fraction intact: the whole-second part is the
floor of `x / 1000` and the fraction becomes the microsecond field.
`tz` is the local timezone offset in seconds. -/
def get_datetime (tz x : Int) : Datetime :=
  { calendarOfSeconds (Int.ediv x 1000 + tz) with
    microsecond := Int.emod x 1000 * 1000 }

/-- Modelled from the spec: the design formula
`datetime = epoch_to_local_calendar(floor(ts_ms / 1000))` — the calendar
value of a whole-second epoch value, millisecond fraction already gone.
(The spec's formula, for comparison with `get_datetime`, which is taken
from the source.) -/
def epoch_to_local_calendar (tz s : Int) : Datetime :=
  calendarOfSeconds (s + tz)

/-- Erase the sub-second part of a datetime value. -/
def truncMicro (dt : Datetime) : Datetime :=
  { dt with microsecond := 0 }

/-- Spark's `dayofweek`: 1 = Sunday, …, 7 = Saturday
(1970-01-01, day 0, was a Thursday, so it maps to 5). -/
def sparkDayofweek (dt : Datetime) : Int :=
  Int.emod (daysFromCivil dt.year dt.month dt.day + 4) 7 + 1

/-- Spark's `weekofyear`: the ISO-8601 week number, computed as the
1-based week index (counted in 7-day blocks from January 1) of the
Thursday falling in the same Monday-based week as the given date. -/
def sparkWeekofyear (dt : Datetime) : Int :=
  let days := daysFromCivil dt.year dt.month dt.day
  let thu := days - Int.emod (days + 3) 7 + 3
  let y := (civilFromDays thu).1
  Int.tdiv (thu - daysFromCivil y 1 1) 7 + 1

-- sanity examples (concrete single-date evaluations of the calendar model)
example : civilFromDays 0 = (1970, 1, 1) := by decide
example : civilFromDays 17847 = (2018, 11, 12) := by decide
example : daysFromCivil 2018 11 12 = 17847 := by decide
example : get_datetime 0 1541990258796 =
    { year := 2018, month := 11, day := 12, hour := 2, minute := 37,
      second := 38, microsecond := 796000 } := by decide

/-! ## Source records (`spark.read.json` rows) -/

/-- One catalog ("song data") JSON record, read at `etl.py` lines 42 and 115. -/
structure SongRecord where
  song_id : String
  title : String
  artist_id : String
  artist_name : String
  artist_location : String
  artist_latitude : Rat
  artist_longitude : Rat
  year : Int
  duration : Rat
deriving DecidableEq

/-- One activity-log JSON record, read at `etl.py` line 75. -/
structure LogRecord where
  ts : Int
  userId : String
  firstName : String
  lastName : String
  gender : String
  level : String
  page : String
  song : String
  artist : String
  sessionId : Int
  location : String
  userAgent : String
deriving DecidableEq

/-! ## Catalog pipeline (`process_song_data`) -/

/-- Row of `songs_table` (`etl.py` line 45). -/
structure SongsRow where
  song_id : String
  title : String
  artist_id : String
  year : Int
  duration : Rat
deriving DecidableEq

/-- `etl.py` line 45: `df['song_id', 'title', 'artist_id', 'year', 'duration']`. -/
def songs_table (df : List SongRecord) : List SongsRow :=
  df.map fun s =>
    { song_id := s.song_id, title := s.title, artist_id := s.artist_id,
      year := s.year, duration := s.duration }

/-- Row of `artists_table` (`etl.py` line 52). -/
structure ArtistsRow where
  artist_id : String
  artist_name : String
  artist_location : String
  artist_latitude : Rat
  artist_longitude : Rat
deriving DecidableEq

/-- `etl.py` line 52. -/
def artists_table (df : List SongRecord) : List ArtistsRow :=
  df.map fun s =>
    { artist_id := s.artist_id, artist_name := s.artist_name,
      artist_location := s.artist_location,
      artist_latitude := s.artist_latitude,
      artist_longitude := s.artist_longitude }

/-! ## Activity pipeline (`process_log_data`) -/

/-- Row of `users_table` (`etl.py` lines 83-84). -/
structure UserRow where
  userId : String
  firstName : String
  lastName : String
  gender : String
  level : String
deriving DecidableEq

/-- The projection behind `df.select('userId', 'firstName', 'lastName',
'gender', 'level')` applied to one record. -/
def userRowOf (r : LogRecord) : UserRow :=
  { userId := r.userId, firstName := r.firstName, lastName := r.lastName,
    gender := r.gender, level := r.level }

/-- `etl.py` lines 83-84: the users projection over the UNFILTERED log
dataframe `df`, then `dropDuplicates()`.  Spark's `dropDuplicates` keeps
one copy of every distinct row (output order unspecified); `List.dedup`
is such a canonical representative. -/
def users_table (df : List LogRecord) : List UserRow :=
  (df.map userRowOf).dedup

/-- Row of `actions_df` after the two `withColumn` calls
(`etl.py` lines 78-80, 91, 95). -/
structure ActionRow where
  ts : Int
  userId : String
  level : String
  song : String
  artist : String
  sessionId : Int
  location : String
  userAgent : String
  timestamp : Int
  datetime : Datetime
deriving DecidableEq

/-- `etl.py` lines 78-80, 91, 95: filter `page == 'NextSong'`, project the
eight kept columns, add the `timestamp` and `datetime` columns. -/
def actions_df (tz : Int) (df : List LogRecord) : List ActionRow :=
  (df.filter fun r => r.page == "NextSong").map fun r =>
    { ts := r.ts, userId := r.userId, level := r.level, song := r.song,
      artist := r.artist, sessionId := r.sessionId, location := r.location,
      userAgent := r.userAgent,
      timestamp := get_timestamp r.ts,
      datetime := get_datetime tz r.ts }

/-- Row of `time_table` (`etl.py` lines 98-106): `select('datetime')`
followed by seven `withColumn` calls.  Note the retained `datetime`
column in addition to `start_time`. -/
structure TimeRow where
  datetime : Datetime
  start_time : Datetime
  hour : Int
  day : Int
  week : Int
  month : Int
  year : Int
  weekday : Int
deriving DecidableEq

/-- One `time_table` row built from a `datetime` column value, following
the seven `withColumn` calls at `etl.py` lines 99-105. -/
def mkTimeRow (dt : Datetime) : TimeRow :=
  { datetime := dt
    start_time := dt
    hour := dt.hour
    day := dt.day
    week := sparkWeekofyear dt
    month := dt.month
    year := dt.year
    weekday := sparkDayofweek dt }

/-- The column names of `time_table`, in construction order: the one
`select`ed column `datetime` followed by the seven columns added by
`withColumn` at `etl.py` lines 99-105. -/
def time_table_columns : List String :=
  ["datetime", "start_time", "hour", "day", "week", "month", "year", "weekday"]

/-- `etl.py` lines 98-106: derive the time rows from `actions_df` and
`dropDuplicates()`. -/
def time_table (tz : Int) (df : List LogRecord) : List TimeRow :=
  ((actions_df tz df).map fun a => mkTimeRow a.datetime).dedup

/-- Row of `songplays_table` (`etl.py` lines 121-132). -/
structure SongplayRow where
  start_time : Datetime
  user_id : String
  level : String
  song_id : String
  artist_id : String
  session_id : Int
  location : String
  user_agent : String
  year : Int
  month : Int
  songplay_id : Nat
deriving DecidableEq

/-- `etl.py` line 120: inner join of `actions_df` and the re-read song
dataframe on `log_df.artist == song_df.artist_name`. -/
def joined_df (tz : Int) (df : List LogRecord) (song_df : List SongRecord) :
    List (ActionRow × SongRecord) :=
  (actions_df tz df).flatMap fun a =>
    (song_df.filter fun s => a.artist == s.artist_name).map fun s => (a, s)

/-- `etl.py` lines 121-132: project the joined rows and attach
`monotonically_increasing_id()`, modelled as the row's index (a
monotonically increasing value, the only property the source relies on). -/
def songplays_table (tz : Int) (df : List LogRecord)
    (song_df : List SongRecord) : List SongplayRow :=
  (joined_df tz df song_df).enum.map fun p =>
    { start_time := p.2.1.datetime
      user_id := p.2.1.userId
      level := p.2.1.level
      song_id := p.2.2.song_id
      artist_id := p.2.2.artist_id
      session_id := p.2.1.sessionId
      location := p.2.1.location
      user_agent := p.2.1.userAgent
      year := p.2.1.datetime.year
      month := p.2.1.datetime.month
      songplay_id := p.1 }

/-! ## Partitioned writer and the two pipeline entry points

Each `.write...parquet(path, 'overwrite')` call in `etl.py` is recorded as a
`WriteOp`.  A sink (an output location) maps each path to the list of data
chunks materialized there; an `overwrite`-mode write replaces the list,
while any other mode (Spark's `append`) would add a chunk to it. -/

/-- The table payload carried by one write. -/
inductive TableRows where
  | songs : List SongsRow → TableRows
  | artists : List ArtistsRow → TableRows
  | users : List UserRow → TableRows
  | time : List TimeRow → TableRows
  | songplays : List SongplayRow → TableRows
deriving DecidableEq

/-- One `write...parquet` call: destination path (relative to
`output_data`), `partitionBy` columns in order, save mode, payload. -/
structure WriteOp where
  path : String
  partitionCols : List String
  mode : String
  data : TableRows
deriving DecidableEq

/-- A sink state: for each path, the chunks materialized at it. -/
def Sink := String → List TableRows

/-- Apply one write: `overwrite` replaces everything at the path, any
other mode appends a chunk. -/
def applyWrite (store : Sink) (w : WriteOp) : Sink :=
  fun p =>
    if p = w.path then
      if w.mode = "overwrite" then [w.data] else store p ++ [w.data]
    else store p

/-- Apply a sequence of writes in order. -/
def applyWrites (store : Sink) (ws : List WriteOp) : Sink :=
  ws.foldl applyWrite store

/-- `etl.py` lines 44-56: the two writes of `process_song_data`, in
program order. -/
def process_song_data (song_df : List SongRecord) : List WriteOp :=
  [ { path := "songs.parquet", partitionCols := ["year", "artist_id"],
      mode := "overwrite", data := TableRows.songs (songs_table song_df) },
    { path := "artists.parquet", partitionCols := [],
      mode := "overwrite", data := TableRows.artists (artists_table song_df) } ]

/-- `etl.py` lines 75-140: the three writes of `process_log_data`, in
program order (`users` at line 87, `time` at lines 109-111, `songplays`
at lines 138-140). -/
def process_log_data (tz : Int) (df : List LogRecord)
    (song_df : List SongRecord) : List WriteOp :=
  [ { path := "users/users.parquet", partitionCols := [],
      mode := "overwrite", data := TableRows.users (users_table df) },
    { path := "time/time.parquet", partitionCols := ["year", "month"],
      mode := "overwrite", data := TableRows.time (time_table tz df) },
    { path := "songplays/songplays.parquet", partitionCols := ["year", "month"],
      mode := "overwrite",
      data := TableRows.songplays (songplays_table tz df song_df) } ]

/-- `main` (`etl.py` lines 146-153): run the catalog pipeline, then the
activity pipeline (which re-reads the same catalog source). -/
def runPipeline (tz : Int) (song_df : List SongRecord)
    (df : List LogRecord) : List WriteOp :=
  process_song_data song_df ++ process_log_data tz df song_df

/-! ## Concrete sample records used by counterexamples and witnesses -/

/-- A `NextSong` activity record carrying the spec's example timestamp
`ts = 1541990258796`. -/
def sampleNextSong : LogRecord :=
  { ts := 1541990258796, userId := "26", firstName := "Ryan",
    lastName := "Smith", gender := "M", level := "paid", page := "NextSong",
    song := "Greece 2000", artist := "Three Drives", sessionId := 583,
    location := "San Jose-Sunnyvale-Santa Clara, CA",
    userAgent := "Mozilla/5.0" }

/-- An activity record whose page is `Home`, not `NextSong`. -/
def sampleHome : LogRecord :=
  { ts := 1541990714796, userId := "80", firstName := "Tegan",
    lastName := "Levine", gender := "F", level := "paid", page := "Home",
    song := "", artist := "", sessionId := 992,
    location := "Portland-South Portland, ME",
    userAgent := "Mozilla/5.0" }

/-- A catalog record whose `artist_name` matches `sampleNextSong.artist`. -/
def sampleCatalog : SongRecord :=
  { song_id := "SOBAYLL12A8C138AF9", title := "Greece 2000",
    artist_id := "ARDR4AC1187FB371A1", artist_name := "Three Drives",
    artist_location := "", artist_latitude := 0, artist_longitude := 0,
    year := 1997, duration := 411 }

/-- A second catalog record, with a distinct `song_id` and artist. -/
def sampleCatalog2 : SongRecord :=
  { song_id := "SONYPOM12A8C13B2D7", title := "I Think My Wife Is Running Around On Me",
    artist_id := "ARDNS031187B9924F0", artist_name := "Tim Wilson",
    artist_location := "Georgia", artist_latitude := 32, artist_longitude := -83,
    year := 2005, duration := 186 }

/-! ## Helper lemmas -/

/-- Filtering on the `NextSong` page is idempotent. -/
theorem nextSong_filter_idem (df : List LogRecord) :
    ((df.filter fun r => r.page == "NextSong").filter fun r => r.page == "NextSong")
      = df.filter fun r => r.page == "NextSong" := by
  induction df with
  | nil => rfl
  | cons r t ih =>
    by_cases h : (r.page == "NextSong") = true
    · simp [List.filter_cons, h, ih]
    · simp [List.filter_cons, h, ih]

/-- `actions_df` only sees the `NextSong` rows: pre-filtering the input
changes nothing. -/
theorem actions_df_filter (tz : Int) (df : List LogRecord) :
    actions_df tz (df.filter fun r => r.page == "NextSong") = actions_df tz df := by
  unfold actions_df
  rw [nextSong_filter_idem]

/-- `time_table` only sees the `NextSong` rows. -/
theorem time_table_filter (tz : Int) (df : List LogRecord) :
    time_table tz (df.filter fun r => r.page == "NextSong") = time_table tz df := by
  unfold time_table
  rw [actions_df_filter]

/-- `songplays_table` only sees the `NextSong` rows. -/
theorem songplays_table_filter (tz : Int) (df : List LogRecord)
    (song_df : List SongRecord) :
    songplays_table tz (df.filter fun r => r.page == "NextSong") song_df
      = songplays_table tz df song_df := by
  unfold songplays_table joined_df
  rw [actions_df_filter]

/-- Every record of the raw log (any page value) contributes its
projected tuple to `users_table`. -/
theorem userRowOf_mem_users_table (df : List LogRecord) (r : LogRecord)
    (h : r ∈ df) : userRowOf r ∈ users_table df :=
  List.mem_dedup.mpr (List.mem_map_of_mem _ h)

/-- Appending a record that is not a `NextSong` record leaves
`actions_df` unchanged. -/
theorem actions_df_append_notNextSong (tz : Int) (df : List LogRecord)
    (r : LogRecord) (h : r.page ≠ "NextSong") :
    actions_df tz (df ++ [r]) = actions_df tz df := by
  unfold actions_df
  rw [List.filter_append]
  simp [List.filter_cons, h]

/-- Membership in `time_table`: exactly the rows built from the datetime
of some `NextSong` record of the input. -/
theorem time_table_mem (tz : Int) (df : List LogRecord) (row : TimeRow) :
    row ∈ time_table tz df ↔
      ∃ r, r ∈ df ∧ r.page = "NextSong" ∧ row = mkTimeRow (get_datetime tz r.ts) := by
  unfold time_table actions_df
  rw [List.mem_dedup]
  simp only [List.map_map, List.mem_map, List.mem_filter, beq_iff_eq]
  constructor
  · rintro ⟨r, ⟨hmem, hpage⟩, rfl⟩
    exact ⟨r, hmem, hpage, rfl⟩
  · rintro ⟨r, hmem, hpage, rfl⟩
    exact ⟨r, ⟨hmem, hpage⟩, rfl⟩

/-- Each `time_table` row is determined by its own `start_time`. -/
theorem time_table_row_eq (tz : Int) (df : List LogRecord) (row : TimeRow)
    (h : row ∈ time_table tz df) : row = mkTimeRow row.start_time := by
  rcases (time_table_mem tz df row).1 h with ⟨r, -, -, rfl⟩
  rfl

/-- Mapping a function of the payload over an `enumFrom` list forgets
the indices. -/
theorem enumFrom_map_payload {α β : Type} (f : α → β) :
    ∀ (n : Nat) (l : List α),
      ((List.enumFrom n l).map fun p => f p.2) = l.map f := by
  intro n l
  induction l generalizing n with
  | nil => rfl
  | cons a t ih => simp [List.enumFrom, ih]

/-- `songplays_table` projected to `song_id` lists the `song_id` of every
joined catalog record, in join order. -/
theorem songplays_map_song_id (tz : Int) (df : List LogRecord)
    (song_df : List SongRecord) :
    (songplays_table tz df song_df).map SongplayRow.song_id
      = (joined_df tz df song_df).map fun p => p.2.song_id := by
  unfold songplays_table List.enum
  rw [List.map_map]
  exact enumFrom_map_payload (fun p => p.2.song_id) 0 (joined_df tz df song_df)

/-- `songplays_table` has one row per joined pair. -/
theorem songplays_length (tz : Int) (df : List LogRecord)
    (song_df : List SongRecord) :
    (songplays_table tz df song_df).length = (joined_df tz df song_df).length := by
  unfold songplays_table
  rw [List.length_map, List.enum_length]

/-- The join of a single `NextSong` event pairs it with every catalog
record whose `artist_name` equals the event's `artist`. -/
theorem joined_df_single (tz : Int) (e : LogRecord) (song_df : List SongRecord)
    (hp : e.page = "NextSong") :
    joined_df tz [e] song_df
      = (song_df.filter fun s => e.artist == s.artist_name).map fun s =>
          ({ ts := e.ts, userId := e.userId, level := e.level, song := e.song,
             artist := e.artist, sessionId := e.sessionId,
             location := e.location, userAgent := e.userAgent,
             timestamp := get_timestamp e.ts,
             datetime := get_datetime tz e.ts }, s) := by
  unfold joined_df actions_df
  simp [List.filter_cons, hp]

/-! ### Writer lemmas -/

theorem applyWrites_cons (s : Sink) (w : WriteOp) (ws : List WriteOp) :
    applyWrites s (w :: ws) = applyWrites (applyWrite s w) ws := rfl

/-- A path no write touches keeps its sink content. -/
theorem applyWrites_untouched :
    ∀ (ws : List WriteOp) (s : Sink) (p : String),
      p ∉ ws.map WriteOp.path → applyWrites s ws p = s p := by
  intro ws
  induction ws with
  | nil => intro s p _; rfl
  | cons w t ih =>
    intro s p hp
    rw [List.map_cons, List.mem_cons] at hp
    push_neg at hp
    rw [applyWrites_cons, ih _ _ hp.2]
    simp [applyWrite, hp.1]

/-- At a path that is written, and with every write in `overwrite` mode,
the final sink content does not depend on what the sink held before. -/
theorem applyWrites_store_indep :
    ∀ (ws : List WriteOp), (∀ w ∈ ws, w.mode = "overwrite") →
      ∀ p, p ∈ ws.map WriteOp.path →
        ∀ s s' : Sink, applyWrites s ws p = applyWrites s' ws p := by
  intro ws
  induction ws with
  | nil => intro _ p hp; simp at hp
  | cons w t ih =>
    intro hmode p hp s s'
    rw [applyWrites_cons, applyWrites_cons]
    by_cases hmem : p ∈ t.map WriteOp.path
    · exact ih (fun x hx => hmode x (List.mem_cons_of_mem _ hx)) p hmem _ _
    · have hpw : p = w.path := by
        rw [List.map_cons, List.mem_cons] at hp
        rcases hp with h | h
        · exact h
        · exact absurd h hmem
      have hw : w.mode = "overwrite" := hmode w (List.mem_cons_self w t)
      rw [applyWrites_untouched t _ p hmem, applyWrites_untouched t _ p hmem]
      simp [applyWrite, hpw, hw]

/-- In a catalog whose `song_id` column is duplicate-free, exactly one
`songs_table` row carries a given present `song_id`. -/
theorem songs_table_countP_eq_one :
    ∀ (l : List SongRecord) (a : String),
      (l.map SongRecord.song_id).Nodup → a ∈ l.map SongRecord.song_id →
      (songs_table l).countP (fun row => row.song_id == a) = 1 := by
  intro l
  induction l with
  | nil => intro a _ ha; simp at ha
  | cons c t ih =>
    intro a hn ha
    rw [List.map_cons, List.nodup_cons] at hn
    rw [List.map_cons, List.mem_cons] at ha
    have hexp : songs_table (c :: t)
        = { song_id := c.song_id, title := c.title, artist_id := c.artist_id,
            year := c.year, duration := c.duration } :: songs_table t := rfl
    rw [hexp, List.countP_cons]
    rcases ha with hac | ha
    · subst hac
      have h0 : (songs_table t).countP (fun row => row.song_id == c.song_id) = 0 := by
        rw [List.countP_eq_zero]
        intro row hrow
        rcases List.mem_map.1 hrow with ⟨c', hc', rfl⟩
        simp only [beq_iff_eq]
        intro hc
        apply hn.1
        rw [← hc]
        exact List.mem_map_of_mem SongRecord.song_id hc'
      simp [h0]
    · have h1 := ih a hn.2 ha
      have hne : (c.song_id == a) = false := by
        simp only [beq_eq_false_iff_ne, ne_eq]
        intro hcontr
        apply hn.1
        rw [hcontr]
        exact ha
      simp [h1, hne]

/-! ## Claims -/

/-- C1, counterexample: the claim says the derived `datetime` column equals
the local calendar value of `floor(ts_ms / 1000)` with the millisecond
fraction truncated BEFORE calendar conversion.  The source instead feeds
`int(x) / 1000` (true division) to `datetime.fromtimestamp`, so at the
spec's own example `ts = 1541990258796` the retained record's `datetime`
keeps microsecond `796000` and differs from
`epoch_to_local_calendar(floor(ts_ms / 1000))`, whose sub-second part is 0. -/
theorem claim_C1_counterexample :
    (actions_df 0 [sampleNextSong]).map ActionRow.datetime ≠
      [epoch_to_local_calendar 0 (Int.ediv sampleNextSong.ts 1000)] := by
  decide

/-- C1, amended: for every retained activity record, the derived `datetime`
keeps the millisecond fraction as its microsecond field; erasing that
sub-second part yields exactly the local calendar value of
`floor(ts_ms / 1000)`.  In particular, for `ts = 1541990258796` the
whole-second part is epoch-second `1541990258` (the `timestamp` column
value) and, at UTC, `year = 2018`, `month = 11`, `day = 12`. -/
theorem claim_C1_amended (tz x : Int) :
    (get_datetime tz x).microsecond = Int.emod x 1000 * 1000 ∧
    truncMicro (get_datetime tz x) = epoch_to_local_calendar tz (Int.ediv x 1000) ∧
    get_timestamp 1541990258796 = 1541990258 ∧
    (get_datetime 0 1541990258796).year = 2018 ∧
    (get_datetime 0 1541990258796).month = 11 ∧
    (get_datetime 0 1541990258796).day = 12 := by
  refine ⟨rfl, ?_, by decide, by decide, by decide, by decide⟩
  simp [get_datetime, truncMicro, epoch_to_local_calendar, calendarOfSeconds]

/-- C2, counterexample: the claim says every row of `UsersDim` is derived
only from `NextSong` records.  But `users_table` is built from the
unfiltered log dataframe: on an input holding a single record whose page
is `Home`, `users_table` differs from `users_table` of the
`NextSong`-filtered input (which is empty) — the non-`NextSong` record
contributed a row. -/
theorem claim_C2_counterexample :
    users_table [sampleHome] ≠
      users_table ([sampleHome].filter fun r => r.page == "NextSong") ∧
    sampleHome.page ≠ "NextSong" := by
  constructor
  · decide
  · decide

/-- C2, amended: every row of `TimeDim` is derived only from activity
records whose page equals `NextSong` (pre-filtering the input changes
nothing), but `UsersDim` is derived from the unfiltered activity set:
every record of the input, whatever its page value, contributes its
projected user tuple. -/
theorem claim_C2_amended (tz : Int) (df : List LogRecord) :
    time_table tz (df.filter fun r => r.page == "NextSong") = time_table tz df ∧
    ∀ r ∈ df, userRowOf r ∈ users_table df :=
  ⟨time_table_filter tz df, fun r hr => userRowOf_mem_users_table df r hr⟩

/-- C4: appending an activity record whose page is not `NextSong` leaves
`time_table` and `songplays_table` unchanged (such records never
contribute, directly or via the join), while its
`(userId, firstName, lastName, gender, level)` tuple does appear in
`users_table`. -/
theorem claim_C4 (tz : Int) (df : List LogRecord) (song_df : List SongRecord)
    (r : LogRecord) (h : r.page ≠ "NextSong") :
    time_table tz (df ++ [r]) = time_table tz df ∧
    songplays_table tz (df ++ [r]) song_df = songplays_table tz df song_df ∧
    userRowOf r ∈ users_table (df ++ [r]) := by
  refine ⟨?_, ?_, ?_⟩
  · unfold time_table
    rw [actions_df_append_notNextSong tz df r h]
  · unfold songplays_table joined_df
    rw [actions_df_append_notNextSong tz df r h]
  · exact userRowOf_mem_users_table _ r (List.mem_append.2 (Or.inr (List.mem_singleton.2 rfl)))

/-- C4, witness: the concrete `Home` record never reaches `time_table` or
`songplays_table` but its user tuple is in `users_table`. -/
theorem claim_C4_witness :
    time_table 0 ([sampleNextSong] ++ [sampleHome]) = time_table 0 [sampleNextSong] ∧
    songplays_table 0 ([sampleNextSong] ++ [sampleHome]) [sampleCatalog]
      = songplays_table 0 [sampleNextSong] [sampleCatalog] ∧
    userRowOf sampleHome ∈ users_table ([sampleNextSong] ++ [sampleHome]) :=
  claim_C4 0 [sampleNextSong] [sampleCatalog] sampleHome (by decide)

/-- Enumerating a list of pairs with a fixed first component, then
mapping, is mapping over the enumeration of the second components. -/
theorem map_enumFrom_map_pair {α β γ : Type} (b : β) (g : Nat × β × α → γ) :
    ∀ (n : Nat) (l : List α),
      (List.enumFrom n (l.map fun a => (b, a))).map g
        = (List.enumFrom n l).map fun p => g (p.1, (b, p.2)) := by
  intro n l
  induction l generalizing n with
  | nil => rfl
  | cons a t ih => simp [List.enumFrom, ih]

/-- Closed form of the fact table for a single `NextSong` event: one row
per exact-name-matching catalog record, indexed in order.  The event's
`song` column does not occur on the right-hand side. -/
theorem songplays_single (tz : Int) (e : LogRecord) (cs : List SongRecord)
    (hp : e.page = "NextSong") :
    songplays_table tz [e] cs =
      (List.enumFrom 0 (cs.filter fun s => e.artist == s.artist_name)).map fun p =>
        { start_time := get_datetime tz e.ts, user_id := e.userId,
          level := e.level, song_id := p.2.song_id, artist_id := p.2.artist_id,
          session_id := e.sessionId, location := e.location,
          user_agent := e.userAgent, year := (get_datetime tz e.ts).year,
          month := (get_datetime tz e.ts).month, songplay_id := p.1 } := by
  unfold songplays_table List.enum
  rw [joined_df_single tz e cs hp]
  rw [map_enumFrom_map_pair]

/-- C3: the fact-table join is an inner join on exact string equality
`activity.artist == catalog.artist_name`.  Given one `NextSong` event and
one catalog record matching it by exact name, the fact table holds exactly
one row carrying the event's `session_id` and the catalog record's
`song_id` / `artist_id`; against a catalog with no exact-name match, the
fact table holds zero rows for the event. -/
theorem claim_C3 (tz : Int) (e : LogRecord) (c : SongRecord)
    (hp : e.page = "NextSong") (hm : c.artist_name = e.artist) :
    songplays_table tz [e] [c] =
      [{ start_time := get_datetime tz e.ts, user_id := e.userId,
         level := e.level, song_id := c.song_id, artist_id := c.artist_id,
         session_id := e.sessionId, location := e.location,
         user_agent := e.userAgent, year := (get_datetime tz e.ts).year,
         month := (get_datetime tz e.ts).month, songplay_id := 0 }] ∧
    ∀ cs : List SongRecord, (∀ c' ∈ cs, c'.artist_name ≠ e.artist) →
      songplays_table tz [e] cs = [] := by
  constructor
  · rw [songplays_single tz e [c] hp]
    have hc : (e.artist == c.artist_name) = true := by simp [hm]
    simp [List.filter_cons, hc, List.enumFrom]
  · intro cs hnone
    rw [songplays_single tz e cs hp]
    have hfil : (cs.filter fun s => e.artist == s.artist_name) = [] := by
      rw [List.filter_eq_nil_iff]
      intro c' hc'
      simp only [beq_iff_eq]
      exact fun hcontr => hnone c' hc' hcontr.symm
    rw [hfil]
    rfl

/-- C3, witness: the concrete `Three Drives` event against a one-record
matching catalog yields exactly its one fact row, and against a catalog
holding only non-matching records it yields no row. -/
theorem claim_C3_witness :
    songplays_table 0 [sampleNextSong] [sampleCatalog] =
      [{ start_time := get_datetime 0 sampleNextSong.ts,
         user_id := sampleNextSong.userId, level := sampleNextSong.level,
         song_id := sampleCatalog.song_id, artist_id := sampleCatalog.artist_id,
         session_id := sampleNextSong.sessionId,
         location := sampleNextSong.location,
         user_agent := sampleNextSong.userAgent,
         year := (get_datetime 0 sampleNextSong.ts).year,
         month := (get_datetime 0 sampleNextSong.ts).month,
         songplay_id := 0 }] ∧
    ∀ cs : List SongRecord, (∀ c' ∈ cs, c'.artist_name ≠ sampleNextSong.artist) →
      songplays_table 0 [sampleNextSong] cs = [] :=
  claim_C3 0 sampleNextSong sampleCatalog (by decide) (by decide)

/-- C10: for one `NextSong` event, the fact table holds one row per
catalog record whose `artist_name` equals the event's `artist` — `k`
matching records yield `k` fact rows, whose `song_id` column lists the
matching records' `song_id`s (pairwise distinct whenever those are); and
the event's own `song` title is never compared: changing it leaves the
fact table unchanged. -/
theorem claim_C10 (tz : Int) (e : LogRecord) (cs : List SongRecord)
    (hp : e.page = "NextSong") :
    (songplays_table tz [e] cs).length
      = (cs.filter fun c => e.artist == c.artist_name).length ∧
    (songplays_table tz [e] cs).map SongplayRow.song_id
      = (cs.filter fun c => e.artist == c.artist_name).map SongRecord.song_id ∧
    (((cs.filter fun c => e.artist == c.artist_name).map SongRecord.song_id).Nodup →
      ((songplays_table tz [e] cs).map SongplayRow.song_id).Nodup) ∧
    ∀ t : String, songplays_table tz [{ e with song := t }] cs
      = songplays_table tz [e] cs := by
  have hmap : (songplays_table tz [e] cs).map SongplayRow.song_id
      = (cs.filter fun c => e.artist == c.artist_name).map SongRecord.song_id := by
    rw [songplays_single tz e cs hp, List.map_map]
    exact enumFrom_map_payload SongRecord.song_id 0 _
  refine ⟨?_, hmap, ?_, ?_⟩
  · have := congrArg List.length hmap
    rwa [List.length_map, List.length_map] at this
  · intro hnd
    rw [hmap]
    exact hnd
  · intro t
    rw [songplays_single tz e cs hp,
      songplays_single tz { e with song := t } cs hp]

/-- C10, witness: the concrete event against a two-record catalog with one
exact-name match yields one fact row listing the matching `song_id`, and
the event's `song` title plays no role. -/
theorem claim_C10_witness :
    (songplays_table 0 [sampleNextSong] [sampleCatalog, sampleCatalog2]).length
      = ([sampleCatalog, sampleCatalog2].filter fun c =>
          sampleNextSong.artist == c.artist_name).length ∧
    (songplays_table 0 [sampleNextSong] [sampleCatalog, sampleCatalog2]).map
        SongplayRow.song_id
      = ([sampleCatalog, sampleCatalog2].filter fun c =>
          sampleNextSong.artist == c.artist_name).map SongRecord.song_id ∧
    ((([sampleCatalog, sampleCatalog2].filter fun c =>
          sampleNextSong.artist == c.artist_name).map SongRecord.song_id).Nodup →
      ((songplays_table 0 [sampleNextSong] [sampleCatalog, sampleCatalog2]).map
          SongplayRow.song_id).Nodup) ∧
    ∀ t : String,
      songplays_table 0 [{ sampleNextSong with song := t }]
          [sampleCatalog, sampleCatalog2]
        = songplays_table 0 [sampleNextSong] [sampleCatalog, sampleCatalog2] :=
  claim_C10 0 sampleNextSong [sampleCatalog, sampleCatalog2] (by decide)

/-- C5, counterexample: the claim says `TimeDim` consists exactly of the
columns `{start_time, hour, day, week, month, year, weekday}`; the source
builds it as `select('datetime')` followed by seven `withColumn` calls,
so the table also retains the eighth column `datetime`. -/
theorem claim_C5_counterexample :
    time_table_columns ≠
      ["start_time", "hour", "day", "week", "month", "year", "weekday"] := by
  decide

/-- C5, amended: `TimeDim` consists of the eight columns
`{datetime, start_time, hour, day, week, month, year, weekday}`, where
`start_time` duplicates the retained `datetime` column; it has one row
per distinct `datetime` value observed among the page-filtered activity
events, and `hour`/`day`/`week`/`month`/`year`/`weekday` are the standard
calendar decomposition of `start_time`. -/
theorem claim_C5_amended (tz : Int) (df : List LogRecord) :
    time_table_columns
      = ["datetime", "start_time", "hour", "day", "week", "month", "year", "weekday"] ∧
    (∀ row, row ∈ time_table tz df ↔
      ∃ r, r ∈ df ∧ r.page = "NextSong" ∧ row = mkTimeRow (get_datetime tz r.ts)) ∧
    ((time_table tz df).map TimeRow.start_time).Nodup ∧
    ∀ row ∈ time_table tz df,
      row.datetime = row.start_time ∧
      row.hour = row.start_time.hour ∧
      row.day = row.start_time.day ∧
      row.week = sparkWeekofyear row.start_time ∧
      row.month = row.start_time.month ∧
      row.year = row.start_time.year ∧
      row.weekday = sparkDayofweek row.start_time := by
  refine ⟨rfl, time_table_mem tz df, ?_, ?_⟩
  · apply List.Nodup.map_on
    · intro x hx y hy hxy
      have hx' := time_table_row_eq tz df x hx
      have hy' := time_table_row_eq tz df y hy
      rw [hx', hy', hxy]
    · exact List.nodup_dedup _
  · intro row hrow
    rcases (time_table_mem tz df row).1 hrow with ⟨r, -, -, rfl⟩
    exact ⟨rfl, rfl, rfl, rfl, rfl, rfl, rfl⟩

/-- C6: when the catalog's `song_id` values are pairwise distinct,
`songs_table` holds exactly one row per present `song_id`, its `title`,
`artist_id`, `year`, `duration` copied verbatim from the catalog record
with that `song_id`, and every row arises from some catalog record. -/
theorem claim_C6 (song_df : List SongRecord) (c : SongRecord)
    (hn : (song_df.map SongRecord.song_id).Nodup) (hc : c ∈ song_df) :
    (songs_table song_df).countP (fun row => row.song_id == c.song_id) = 1 ∧
    ({ song_id := c.song_id, title := c.title, artist_id := c.artist_id,
       year := c.year, duration := c.duration } : SongsRow) ∈ songs_table song_df ∧
    ∀ row ∈ songs_table song_df, ∃ c', c' ∈ song_df ∧
      row = { song_id := c'.song_id, title := c'.title, artist_id := c'.artist_id,
              year := c'.year, duration := c'.duration } := by
  refine ⟨?_, ?_, ?_⟩
  · exact songs_table_countP_eq_one song_df c.song_id hn
      (List.mem_map_of_mem SongRecord.song_id hc)
  · exact List.mem_map_of_mem _ hc
  · intro row hrow
    rcases List.mem_map.1 hrow with ⟨c', hc', rfl⟩
    exact ⟨c', hc', rfl⟩

/-- C6, witness: in a concrete two-record catalog with distinct
`song_id`s, the first record's `song_id` labels exactly one verbatim row. -/
theorem claim_C6_witness :
    (songs_table [sampleCatalog, sampleCatalog2]).countP
        (fun row => row.song_id == sampleCatalog.song_id) = 1 ∧
    ({ song_id := sampleCatalog.song_id, title := sampleCatalog.title,
       artist_id := sampleCatalog.artist_id, year := sampleCatalog.year,
       duration := sampleCatalog.duration } : SongsRow)
      ∈ songs_table [sampleCatalog, sampleCatalog2] ∧
    ∀ row ∈ songs_table [sampleCatalog, sampleCatalog2],
      ∃ c', c' ∈ [sampleCatalog, sampleCatalog2] ∧
        row = { song_id := c'.song_id, title := c'.title,
                artist_id := c'.artist_id, year := c'.year,
                duration := c'.duration } :=
  claim_C6 [sampleCatalog, sampleCatalog2] sampleCatalog (by decide) (by decide)

/-- C7: the `UsersDim` derivation is a function of its input (equal
activity inputs give equal row lists), its output is duplicate-free, its
rows are exactly the projected tuples of the input records, and each
distinct projected tuple appears exactly once. -/
theorem claim_C7 (df df' : List LogRecord) :
    (df = df' → users_table df = users_table df') ∧
    (users_table df).Nodup ∧
    (∀ u, u ∈ users_table df ↔ ∃ r, r ∈ df ∧ userRowOf r = u) ∧
    ∀ u ∈ users_table df, (users_table df).count u = 1 := by
  refine ⟨fun h => by rw [h], List.nodup_dedup _, ?_, ?_⟩
  · intro u
    unfold users_table
    rw [List.mem_dedup, List.mem_map]
  · intro u hu
    exact List.count_eq_one_of_mem (List.nodup_dedup _) hu

/-- C8: every write of the pipeline uses `overwrite` mode, so the sink
content at every written path is independent of whatever the sink held
before the run; in particular running the very same pipeline a second
time leaves the written paths exactly as after the first run. -/
theorem claim_C8 (tz : Int) (song_df : List SongRecord) (df : List LogRecord) :
    (∀ w ∈ runPipeline tz song_df df, w.mode = "overwrite") ∧
    (∀ p, p ∈ (runPipeline tz song_df df).map WriteOp.path →
      ∀ s s' : Sink, applyWrites s (runPipeline tz song_df df) p
        = applyWrites s' (runPipeline tz song_df df) p) ∧
    ∀ (s : Sink) (p : String), p ∈ (runPipeline tz song_df df).map WriteOp.path →
      applyWrites (applyWrites s (runPipeline tz song_df df))
          (runPipeline tz song_df df) p
        = applyWrites s (runPipeline tz song_df df) p := by
  have hmode : ∀ w ∈ runPipeline tz song_df df, w.mode = "overwrite" := by
    intro w hw
    simp only [runPipeline, process_song_data, process_log_data,
      List.mem_append, List.mem_cons, List.not_mem_nil, or_false] at hw
    rcases hw with (rfl | rfl) | (rfl | rfl | rfl) <;> rfl
  refine ⟨hmode, ?_, ?_⟩
  · intro p hp s s'
    exact applyWrites_store_indep _ hmode p hp s s'
  · intro s p hp
    exact applyWrites_store_indep _ hmode p hp _ _

/-- C9: the pipeline's five writes target, in order: `songs` partitioned
by `(year, artist_id)`, `artists` unpartitioned, `users` unpartitioned,
`time` partitioned by `(year, month)`, `songplays` partitioned by
`(year, month)`. -/
theorem claim_C9 (tz : Int) (song_df : List SongRecord) (df : List LogRecord) :
    (runPipeline tz song_df df).map (fun w => (w.path, w.partitionCols)) =
      [("songs.parquet", ["year", "artist_id"]),
       ("artists.parquet", []),
       ("users/users.parquet", []),
       ("time/time.parquet", ["year", "month"]),
       ("songplays/songplays.parquet", ["year", "month"])] := rfl
